import Mathlib

/-!
Verification development for the two technical-analysis variants of this
repository: `simple_analysis.py` (reduced, pandas-based) and
`advanced_analysis.py` (full, TA-Lib-based).

The numeric domain of the source is IEEE double arithmetic over finite data
windows.  We embed it as exact rational arithmetic together with the three
non-finite values `nan`, `inf`, `ninf`; rational constants written in the
source as decimal literals (0.2, 0.25, 0.8, 0.85, 0.05, 0.02) are embedded as
the exact rationals they denote.  Rationals are represented by a dedicated
normalized-fraction type `PRat` whose operations are structurally recursive,
so that every definition in this file evaluates inside the kernel (Mathlib's
`Rat` operations are defined through well-founded recursion and do not).
-/

namespace TechAnalysis

/-- Fuel-driven Euclid's algorithm.  The second numeric argument strictly
decreases at every step, so fuel `b + 1` always suffices. -/
def gcdGo : Nat → Nat → Nat → Nat
  | 0, a, _ => a
  | fuel + 1, a, b => if b = 0 then a else gcdGo fuel b (a % b)

/-- Greatest common divisor, structurally recursive (kernel-reducible). -/
def ngcd (a b : Nat) : Nat := gcdGo (b + 1) a b

/-- Exact rational number: numerator and (positive) denominator.  Values are
kept normalized by the smart constructor `PRat.mk2`, so structural equality of
values built by the operations below coincides with equality of rationals. -/
structure PRat where
  n : Int
  d : Nat
deriving DecidableEq, Repr

/-- Normalizing constructor: divides out the gcd.  A zero denominator (never
produced by the arithmetic below on well-formed values) is mapped to 0. -/
def PRat.mk2 (n : Int) (d : Nat) : PRat :=
  if d = 0 then ⟨0, 1⟩
  else
    let g := ngcd n.natAbs d
    if g = 0 then ⟨0, 1⟩ else ⟨n.ediv (Int.ofNat g), d / g⟩

def PRat.add (a b : PRat) : PRat := PRat.mk2 (a.n * b.d + b.n * a.d) (a.d * b.d)

def PRat.neg (a : PRat) : PRat := ⟨-a.n, a.d⟩

def PRat.sub (a b : PRat) : PRat := PRat.add a (PRat.neg b)

def PRat.mul (a b : PRat) : PRat := PRat.mk2 (a.n * b.n) (a.d * b.d)

/-- Division; the sign of the divisor's numerator is moved into the result's
numerator so the denominator stays positive. -/
def PRat.div (a b : PRat) : PRat :=
  if b.n < 0 then PRat.mk2 (a.n * (-(b.d : Int))) (a.d * b.n.natAbs)
  else PRat.mk2 (a.n * (b.d : Int)) (a.d * b.n.natAbs)

/-- Strict order by cross-multiplication (denominators are positive). -/
def PRat.blt (a b : PRat) : Bool := decide (a.n * (b.d : Int) < b.n * (a.d : Int))

/-- Non-strict order by cross-multiplication. -/
def PRat.ble (a b : PRat) : Bool := decide (a.n * (b.d : Int) ≤ b.n * (a.d : Int))

/-- Equality as rational numbers, by cross-multiplication. -/
def PRat.beqv (a b : PRat) : Bool := decide (a.n * (b.d : Int) = b.n * (a.d : Int))

instance (m : Nat) : OfNat PRat m := ⟨⟨Int.ofNat m, 1⟩⟩

instance : NatCast PRat := ⟨fun m => ⟨Int.ofNat m, 1⟩⟩

instance : Mul PRat := ⟨PRat.mul⟩

instance : Div PRat := ⟨PRat.div⟩

instance : LE PRat := ⟨fun a b => PRat.ble a b = true⟩

instance (a b : PRat) : Decidable (a ≤ b) := inferInstanceAs (Decidable (_ = true))

instance : Min PRat := ⟨fun a b => if PRat.ble a b then a else b⟩

/-- Fuel-driven Newton iteration for the integer square root, descending from
an over-approximation; stops as soon as the iterate no longer decreases. -/
def isqrtGo : Nat → Nat → Nat → Nat
  | 0, _, g => g
  | fuel + 1, a, g =>
    let g2 := (g + a / g) / 2
    if g2 < g then isqrtGo fuel a g2 else g

/-- Integer square root (floor), structurally recursive. -/
def isqrtNat (a : Nat) : Nat := if a ≤ 1 then a else isqrtGo a a (a / 2 + 1)

/-- Exact rational square root of a normalized `PRat`, when it exists. -/
def PRat.sqrtExact (q : PRat) : Option PRat :=
  if q.n < 0 then none
  else
    let sn := isqrtNat q.n.natAbs
    let sd := isqrtNat q.d
    if sn * sn = q.n.natAbs ∧ sd * sd = q.d then some (PRat.mk2 (Int.ofNat sn) sd)
    else none

/-- Embedded IEEE double: an exact rational, or one of nan, +inf, -inf. -/
inductive PyF where
  | nan
  | inf
  | ninf
  | num (q : PRat)
deriving DecidableEq, Repr

def isna : PyF → Bool
  | PyF.nan => true
  | _ => false

def pyNeg : PyF → PyF
  | PyF.nan => PyF.nan
  | PyF.inf => PyF.ninf
  | PyF.ninf => PyF.inf
  | PyF.num q => PyF.num (PRat.neg q)

def pyAbs : PyF → PyF
  | PyF.nan => PyF.nan
  | PyF.inf => PyF.inf
  | PyF.ninf => PyF.inf
  | PyF.num q => PyF.num ⟨Int.ofNat q.n.natAbs, q.d⟩

def pyAdd : PyF → PyF → PyF
  | PyF.nan, _ => PyF.nan
  | _, PyF.nan => PyF.nan
  | PyF.inf, PyF.ninf => PyF.nan
  | PyF.ninf, PyF.inf => PyF.nan
  | PyF.inf, _ => PyF.inf
  | _, PyF.inf => PyF.inf
  | PyF.ninf, _ => PyF.ninf
  | _, PyF.ninf => PyF.ninf
  | PyF.num a, PyF.num b => PyF.num (PRat.add a b)

def pySub (a b : PyF) : PyF := pyAdd a (pyNeg b)

def pyMul : PyF → PyF → PyF
  | PyF.nan, _ => PyF.nan
  | _, PyF.nan => PyF.nan
  | PyF.inf, PyF.inf => PyF.inf
  | PyF.inf, PyF.ninf => PyF.ninf
  | PyF.ninf, PyF.inf => PyF.ninf
  | PyF.ninf, PyF.ninf => PyF.inf
  | PyF.inf, PyF.num b => if b.n = 0 then PyF.nan else if b.n < 0 then PyF.ninf else PyF.inf
  | PyF.num a, PyF.inf => if a.n = 0 then PyF.nan else if a.n < 0 then PyF.ninf else PyF.inf
  | PyF.ninf, PyF.num b => if b.n = 0 then PyF.nan else if b.n < 0 then PyF.inf else PyF.ninf
  | PyF.num a, PyF.ninf => if a.n = 0 then PyF.nan else if a.n < 0 then PyF.inf else PyF.ninf
  | PyF.num a, PyF.num b => PyF.num (PRat.mul a b)

/-- IEEE division as numpy performs it (division by +0 yields a signed
infinity, 0/0 yields nan; numpy emits a warning, not an exception). -/
def pyDiv : PyF → PyF → PyF
  | PyF.nan, _ => PyF.nan
  | _, PyF.nan => PyF.nan
  | PyF.inf, PyF.inf => PyF.nan
  | PyF.inf, PyF.ninf => PyF.nan
  | PyF.ninf, PyF.inf => PyF.nan
  | PyF.ninf, PyF.ninf => PyF.nan
  | PyF.num _, PyF.inf => PyF.num 0
  | PyF.num _, PyF.ninf => PyF.num 0
  | PyF.inf, PyF.num b => if b.n < 0 then PyF.ninf else PyF.inf
  | PyF.ninf, PyF.num b => if b.n < 0 then PyF.inf else PyF.ninf
  | PyF.num a, PyF.num b =>
    if b.n = 0 then
      if a.n = 0 then PyF.nan else if a.n < 0 then PyF.ninf else PyF.inf
    else PyF.num (PRat.div a b)

/-- IEEE strict less-than: any comparison with nan is false. -/
def pyLt : PyF → PyF → Bool
  | PyF.nan, _ => false
  | _, PyF.nan => false
  | PyF.num a, PyF.num b => PRat.blt a b
  | PyF.ninf, PyF.ninf => false
  | PyF.ninf, _ => true
  | _, PyF.ninf => false
  | PyF.inf, _ => false
  | PyF.num _, PyF.inf => true

def pyGt (a b : PyF) : Bool := pyLt b a

/-- IEEE equality: nan is not equal to anything, including itself. -/
def pyEqF : PyF → PyF → Bool
  | PyF.num a, PyF.num b => PRat.beqv a b
  | PyF.inf, PyF.inf => true
  | PyF.ninf, PyF.ninf => true
  | _, _ => false

/-- Pairwise maximum skipping nan, as pandas `DataFrame.max(axis=1)` uses. -/
def pyMax2 : PyF → PyF → PyF
  | PyF.nan, y => y
  | x, PyF.nan => x
  | x, y => if pyLt x y then y else x

def pyMin2 : PyF → PyF → PyF
  | PyF.nan, y => y
  | x, PyF.nan => x
  | x, y => if pyLt y x then y else x

/-! ### pandas-style series operations

A pandas `Series` built from a numpy array carries a `RangeIndex`, so a binary
operation between two Series of different lengths aligns them on the union of
the indexes, padding the shorter one with nan (`alignOp`); a binary operation
between a numpy array and a Series instead requires equal lengths and raises a
`ValueError` otherwise (`strictOp`). -/

def alignTo (len : Nat) (xs : List PyF) : List PyF :=
  xs ++ List.replicate (len - xs.length) PyF.nan

def alignOp (f : PyF → PyF → PyF) (xs ys : List PyF) : List PyF :=
  let len := max xs.length ys.length
  List.zipWith f (alignTo len xs) (alignTo len ys)

def lengthMismatchMsg : String := "ValueError: operands could not be broadcast together"

def strictOp (f : PyF → PyF → PyF) (xs ys : List PyF) : Except String (List PyF) :=
  if xs.length = ys.length then Except.ok (List.zipWith f xs ys)
  else Except.error lengthMismatchMsg

/-- `Series.diff()`: first element nan, then successive differences. -/
def seriesDiff (xs : List PyF) : List PyF :=
  match xs with
  | [] => []
  | _ :: tail => PyF.nan :: List.zipWith pySub tail xs

/-- `Series.shift()`: first element nan, then the previous elements. -/
def seriesShift (xs : List PyF) : List PyF :=
  match xs with
  | [] => []
  | _ :: _ => PyF.nan :: xs.dropLast

def sumPy (xs : List PyF) : PyF := xs.foldl pyAdd (PyF.num 0)

def meanStat (xs : List PyF) : PyF := pyDiv (sumPy xs) (PyF.num (xs.length : PRat))

def maxStat (xs : List PyF) : PyF := xs.foldl pyMax2 PyF.nan

def minStat (xs : List PyF) : PyF := xs.foldl pyMin2 PyF.nan

/-- Square root on the embedded floats.  It is exact on perfect rational
squares — the only values this development ever evaluates it on (the rolling
standard deviations reached below are all 0).  An irrational square root has
no exact rational representative and is mapped to nan. -/
def pfSqrt : PyF → PyF
  | PyF.nan => PyF.nan
  | PyF.inf => PyF.inf
  | PyF.ninf => PyF.nan
  | PyF.num q =>
    match PRat.sqrtExact q with
    | some r => PyF.num r
    | none => PyF.nan

/-- Sample standard deviation (ddof = 1), as pandas `rolling.std` uses. -/
def stdStat (xs : List PyF) : PyF :=
  let m := meanStat xs
  let devsq := xs.map (fun x => pyMul (pySub x m) (pySub x m))
  pfSqrt (pyDiv (sumPy devsq) (PyF.num ((xs.length - 1 : Nat) : PRat)))

/-- `Series.rolling(window=w).stat()` with the default `min_periods = w`: the
value at index `i` is defined only when the window of the `w` entries ending
at `i` is complete and free of nan. -/
def rollingApply (w : Nat) (stat : List PyF → PyF) (xs : List PyF) : List PyF :=
  (List.range xs.length).map (fun i =>
    if i + 1 < w then PyF.nan
    else
      let win := (xs.drop (i + 1 - w)).take w
      if win.any isna then PyF.nan else stat win)

/-- State of pandas' exponentially-weighted mean recursion
(`adjust=False, ignore_na=False`): the running mean (nan while no observation
has been seen) and the accumulated weight of the old mean, which decays
through nan gaps. -/
structure EwmSt where
  avg : PyF
  oldWt : PRat
deriving DecidableEq, Repr

def ewmStep (alpha owf : PRat) (st : EwmSt) (cur : PyF) : EwmSt :=
  if isna st.avg then
    if isna cur then st else ⟨cur, st.oldWt⟩
  else
    if isna cur then ⟨st.avg, PRat.mul st.oldWt owf⟩
    else
      let owt := PRat.mul st.oldWt owf
      let navg :=
        if pyEqF st.avg cur then st.avg
        else
          pyDiv (pyAdd (pyMul (PyF.num owt) st.avg) (pyMul (PyF.num alpha) cur))
            (PyF.num (PRat.add owt alpha))
      ⟨navg, 1⟩

/-- `Series.ewm(span=s, adjust=False).mean()` with pandas' exact update rule
(including nan handling with `ignore_na=False`): `alpha = 2/(s+1)`. -/
def ewmMean (span : Nat) (xs : List PyF) : List PyF :=
  let alpha : PRat := PRat.div 2 ((span + 1 : Nat) : PRat)
  let owf : PRat := PRat.sub 1 alpha
  (xs.foldl
    (fun (acc : List PyF × EwmSt) cur =>
      let st := ewmStep alpha owf acc.2 cur
      (acc.1 ++ [st.avg], st))
    (([] : List PyF), (⟨PyF.nan, 1⟩ : EwmSt))).1

/-- `.iloc[-1]` of a series (nan when the series is empty; every series this
development takes a last element of is nonempty). -/
def lastD (xs : List PyF) : PyF := (xs.getLast?).getD PyF.nan

/-- `xs.iloc[-1] if not pd.isna(xs.iloc[-1]) else dflt` — the fallback pattern
of the reduced variant. -/
def lastOr (dflt : PRat) (xs : List PyF) : PyF :=
  let v := lastD xs
  if isna v then PyF.num dflt else v

/-! ### Shared record shapes -/

/-- The parsed input record: each field is a numeric sequence or absent.
(Absent `highs`/`lows` default to `prices`; absent `volumes` defaults to a
unit vector — applied at the use sites, exactly as the source does.) -/
structure InputData where
  prices : Option (List PyF)
  highs : Option (List PyF)
  lows : Option (List PyF)
  volumes : Option (List PyF)
deriving DecidableEq, Repr

structure Summary where
  action : String
  strength : Nat
  confidence : PRat
deriving DecidableEq, Repr

/-- The output record; a `none` field embeds a key that is absent from the
returned Python dict. -/
structure OutRecord (I : Type) where
  success : Option Bool
  indicators : Option I
  signals : Option (List String)
  summary : Option Summary
  error : Option String
deriving DecidableEq, Repr

/-- `prices = np.array(data.get('prices', []), dtype=float)` — line 87 of the
reduced variant, line 25 of the full variant. -/
def getPrices (input : InputData) : List PyF := input.prices.getD []

/-- `highs = np.array(data.get('highs', prices), dtype=float)`. -/
def getHighs (input : InputData) : List PyF := input.highs.getD (getPrices input)

/-- `lows = np.array(data.get('lows', prices), dtype=float)`. -/
def getLows (input : InputData) : List PyF := input.lows.getD (getPrices input)

namespace SimpleTA

/-!
Embedding of `src/python/simple_analysis.py` (the reduced variant).
Function and field names follow the source.
-/

/-- `calculate_rsi` (lines 12-20): rolling-mean RSI with a 50.0 fallback when
the final value is nan.  Note `delta.where(delta > 0, 0)` replaces the leading
nan of `diff` by 0 because `nan > 0` is false. -/
def calculate_rsi (prices : List PyF) (period : Nat) : PyF :=
  let delta := seriesDiff prices
  let gain := rollingApply period meanStat
    (delta.map (fun d => if pyGt d (PyF.num 0) then d else PyF.num 0))
  let loss := rollingApply period meanStat
    (delta.map (fun d => pyNeg (if pyLt d (PyF.num 0) then d else PyF.num 0)))
  let rs := alignOp pyDiv gain loss
  let rsi := rs.map (fun r => pySub (PyF.num 100) (pyDiv (PyF.num 100) (pyAdd (PyF.num 1) r)))
  lastOr 50 rsi

/-- `calculate_sma` (lines 22-24). -/
def calculate_sma (prices : List PyF) (period : Nat) : PyF :=
  lastD (rollingApply period meanStat prices)

/-- `calculate_ema` (lines 26-28). -/
def calculate_ema (prices : List PyF) (period : Nat) : PyF :=
  lastD (ewmMean period prices)

structure BBands where
  upper : PyF
  middle : PyF
  lower : PyF
deriving DecidableEq, Repr

/-- `calculate_bollinger_bands` (lines 30-41), default period 20, std_dev 2. -/
def calculate_bollinger_bands (prices : List PyF) (period : Nat) (std_dev : PRat) : BBands :=
  let sma := rollingApply period meanStat prices
  let std := rollingApply period stdStat prices
  let upper := alignOp pyAdd sma (std.map (fun s => pyMul s (PyF.num std_dev)))
  let middle := sma
  let lower := alignOp pySub sma (std.map (fun s => pyMul s (PyF.num std_dev)))
  ⟨lastD upper, lastD middle, lastD lower⟩

structure MacdOut where
  macd : PyF
  signal : PyF
  histogram : PyF
deriving DecidableEq, Repr

/-- `calculate_macd` (lines 43-54), fast 12, slow 26, signal 9. -/
def calculate_macd (prices : List PyF) : MacdOut :=
  let ema_fast := ewmMean 12 prices
  let ema_slow := ewmMean 26 prices
  let macd_line := List.zipWith pySub ema_fast ema_slow
  let signal_line := ewmMean 9 macd_line
  let histogram := List.zipWith pySub macd_line signal_line
  ⟨lastD macd_line, lastD signal_line, lastD histogram⟩

/-- `calculate_stochastic` (lines 56-67).  `closes - low_roll` subtracts a
pandas Series from a numpy array, which demands equal lengths (`strictOp`);
the remaining operations are Series-Series and align by index. -/
def calculate_stochastic (highs lows closes : List PyF) : Except String (PyF × PyF) :=
  let high_roll := rollingApply 14 maxStat highs
  let low_roll := rollingApply 14 minStat lows
  match strictOp pySub closes low_roll with
  | Except.error e => Except.error e
  | Except.ok closes_sub =>
    let k := alignOp pyDiv (closes_sub.map (fun x => pyMul (PyF.num 100) x))
      (alignOp pySub high_roll low_roll)
    let d := rollingApply 3 meanStat k
    Except.ok (lastOr 50 k, lastOr 50 d)

/-- `calculate_atr` (lines 69-82).  All operations are Series-Series, so
mismatched lengths align with nan padding; `pd.concat(...).max(axis=1)`
is a row-wise maximum that skips nan. -/
def calculate_atr (highs lows closes : List PyF) (period : Nat) : PyF :=
  let tr1 := alignOp pySub highs lows
  let shifted := seriesShift closes
  let tr2 := (alignOp pySub highs shifted).map pyAbs
  let tr3 := (alignOp pySub lows shifted).map pyAbs
  let tr := alignOp pyMax2 (alignOp pyMax2 tr1 tr2) tr3
  let atr := rollingApply period meanStat tr
  lastOr 0 atr

/-- `calculate_bb_position` (lines 201-211), a helper on the latest float
values (which can be nan, e.g. `sma_50` on a short series). -/
def calculate_bb_position (price upper lower : PyF) : String :=
  if pyEqF upper lower then "UNKNOWN"
  else
    let position := pyDiv (pySub price lower) (pySub upper lower)
    if pyLt position (PyF.num (1/5)) then "LOWER"
    else if pyGt position (PyF.num (4/5)) then "UPPER"
    else "MIDDLE"

/-- Line 134. -/
def bullish_signals : List String :=
  ["RSI_OVERSOLD", "MACD_BULLISH", "BB_OVERSOLD", "TREND_BULLISH"]

/-- Line 135. -/
def bearish_signals : List String :=
  ["RSI_OVERBOUGHT", "MACD_BEARISH", "BB_OVERBOUGHT", "TREND_BEARISH"]

/-- Line 137: `sum(1 for s in signals if s in bullish_signals)`. -/
def bullish_count (signals : List String) : Nat :=
  signals.countP (fun s => bullish_signals.contains s)

/-- Line 138. -/
def bearish_count (signals : List String) : Nat :=
  signals.countP (fun s => bearish_signals.contains s)

/-- Lines 140-148 and 188-192: action and confidence from the two counts;
the reported `strength` is `max(bullish_count, bearish_count)` (line 190),
computed regardless of the chosen action. -/
def summaryOfCounts (b s : Nat) : Summary :=
  let strength := max b s
  if b > s then ⟨"BUY", strength, min ((b : PRat) * (1/5)) (4/5)⟩
  else if s > b then ⟨"SELL", strength, min ((s : PRat) * (1/5)) (4/5)⟩
  else ⟨"HOLD", strength, 1/2⟩

/-- The summary dict of lines 188-192 as a function of the signal list. -/
def simpleSummary (signals : List String) : Summary :=
  summaryOfCounts (bullish_count signals) (bearish_count signals)

/-- Lines 110-131: the signal list as a function of the latest indicator
values it reads. -/
def simpleSignals (rsi_14 macdv macdsig current_price bb_lower bb_upper sma_20 sma_50 : PyF) :
    List String :=
  (if pyLt rsi_14 (PyF.num 30) then ["RSI_OVERSOLD"]
   else if pyGt rsi_14 (PyF.num 70) then ["RSI_OVERBOUGHT"] else [])
  ++ (if pyGt macdv macdsig then ["MACD_BULLISH"] else ["MACD_BEARISH"])
  ++ (if pyLt current_price bb_lower then ["BB_OVERSOLD"]
      else if pyGt current_price bb_upper then ["BB_OVERBOUGHT"] else [])
  ++ (if pyGt sma_20 sma_50 then ["TREND_BULLISH"] else ["TREND_BEARISH"])

/-- The `indicators` sub-record of the success result (lines 152-186). -/
structure SimpleIndicators where
  rsi_14 : PyF
  rsi_7 : PyF
  rsi_21 : PyF
  macd : PyF
  macd_signal : PyF
  macd_histogram : PyF
  macd_trend : String
  bb_upper : PyF
  bb_middle : PyF
  bb_lower : PyF
  bb_position : String
  stoch_k : PyF
  stoch_d : PyF
  stoch_signal : String
  atr_value : PyF
  atr_volatility : String
  sma_20 : PyF
  sma_50 : PyF
  ema_12 : PyF
  ema_26 : PyF
  ma_trend : String
deriving DecidableEq, Repr

/-- The early return of lines 91-92. -/
def shortRecord : OutRecord SimpleIndicators :=
  ⟨some false, none, none, none, some "Need at least 30 data points"⟩

/-- The success record of lines 94-193, given the parsed series and the
already-computed stochastic pair (the one computation that can raise). -/
def successRecord (prices highs lows : List PyF) (stoch : PyF × PyF) :
    OutRecord SimpleIndicators :=
  let rsi_14 := calculate_rsi prices 14
  let rsi_7 := calculate_rsi prices 7
  let rsi_21 := calculate_rsi prices 21
  let bb := calculate_bollinger_bands prices 20 2
  let macd_data := calculate_macd prices
  let atr := calculate_atr highs lows prices 14
  let sma_20 := calculate_sma prices 20
  let sma_50 := calculate_sma prices 50
  let ema_12 := calculate_ema prices 12
  let ema_26 := calculate_ema prices 26
  let current_price := lastD prices
  let signals := simpleSignals rsi_14 macd_data.macd macd_data.signal current_price
    bb.lower bb.upper sma_20 sma_50
  let indicators : SimpleIndicators :=
    ⟨rsi_14, rsi_7, rsi_21,
     macd_data.macd, macd_data.signal, macd_data.histogram,
     (if pyGt macd_data.macd macd_data.signal then "BULLISH" else "BEARISH"),
     bb.upper, bb.middle, bb.lower,
     calculate_bb_position current_price bb.upper bb.lower,
     stoch.1, stoch.2,
     (if pyLt stoch.1 (PyF.num 20) then "OVERSOLD"
      else if pyGt stoch.1 (PyF.num 80) then "OVERBOUGHT" else "NEUTRAL"),
     atr,
     (if pyGt atr (pyMul current_price (PyF.num (1/20))) then "HIGH"
      else if pyGt atr (pyMul current_price (PyF.num (1/50))) then "MEDIUM" else "LOW"),
     sma_20, sma_50, ema_12, ema_26,
     (if pyGt sma_20 sma_50 then "BULLISH" else "BEARISH")⟩
  ⟨some true, some indicators, some signals, some (simpleSummary signals), none⟩

/-- The body of `analyze_data` inside its `try:` (lines 86-193).  The only
operation that can raise on numeric input is the array-Series subtraction
inside `calculate_stochastic`. -/
def analyze_body (input : InputData) : Except String (OutRecord SimpleIndicators) :=
  if (getPrices input).length < 30 then Except.ok shortRecord
  else
    match calculate_stochastic (getHighs input) (getLows input) (getPrices input) with
    | Except.error e => Except.error e
    | Except.ok stoch =>
      Except.ok (successRecord (getPrices input) (getHighs input) (getLows input) stoch)

/-- `analyze_data` (lines 84-199): the catch-all `except` converts any raised
exception into `{'success': False, 'error': str(e)}`. -/
def analyze_data (input : InputData) : OutRecord SimpleIndicators :=
  match analyze_body input with
  | Except.ok r => r
  | Except.error e => ⟨some false, none, none, none, some e⟩

/-- 30 identical price points (the flat-line example input). -/
def flatInput : InputData := ⟨some (List.replicate 30 (PyF.num 100)), none, none, none⟩

/-- A length-mismatched input: 30 prices (and defaulted lows) but only 5
highs. -/
def mismatchedInput : InputData :=
  ⟨some (List.replicate 30 (PyF.num 100)), some (List.replicate 5 (PyF.num 100)), none, none⟩

end SimpleTA

namespace AdvancedTA

/-!
Embedding of `src/python/advanced_analysis.py` (the full variant).  The
claims below concern the input guard (lines 24-31), the signal-extraction
block (lines 92-118), `calculate_bb_position` (lines 176-188) and
`generate_summary` (lines 190-215); the latest indicator values consumed by
the signal block are `get_last(...)` results, i.e. `None` when the last array
entry is NaN, so they are embedded as `Option PRat`.
-/

/-- The early error return of line 31: `{'error': ...}` — note it carries no
`success` key and no `indicators` key. -/
def errRecord : OutRecord Unit :=
  ⟨none, none, none, none, some "Need at least 30 data points"⟩

/-- Lines 24-31 of `calculate_advanced_indicators`: the input adapter and the
length guard, the only validation the function performs.  `some r` embeds the
early return; `none` means control falls through to the indicator
computation (whose numeric battery the claims below do not inspect). -/
def inputStage (input : InputData) : Option (OutRecord Unit) :=
  let prices := getPrices input
  let _highs := getHighs input
  let _lows := getLows input
  let _volumes := input.volumes.getD (List.replicate (getPrices input).length (PyF.num 1))
  if prices.length < 30 then some errRecord else none

/-- Python truthiness of a `get_last` result: `None` and `0.0` are falsy. -/
def pyFalsyQ : Option PRat → Bool
  | none => true
  | some q => PRat.beqv q 0

/-- Python `==` on two `get_last` results (float equality by value;
`None == None` is `True`, `None == float` is `False`). -/
def pyEqO : Option PRat → Option PRat → Bool
  | some a, some b => PRat.beqv a b
  | none, none => true
  | _, _ => false

/-- `calculate_bb_position` (lines 176-188).  The guard is
`if not upper or not lower or upper == lower`, so a band that is `None` OR
exactly `0.0` short-circuits to UNKNOWN. -/
def calculate_bb_position (price : PRat) (upper lower : Option PRat) : String :=
  if pyFalsyQ upper || pyFalsyQ lower || pyEqO upper lower then "UNKNOWN"
  else
    match upper, lower with
    | some u, some l =>
      let position := PRat.div (PRat.sub price l) (PRat.sub u l)
      if PRat.blt position (1/5) then "LOWER"
      else if PRat.blt (4/5) position then "UPPER"
      else "MIDDLE"
    | _, _ => "UNKNOWN"

/-- Python 3 raises `TypeError` when `<` / `>` meets `None`. -/
def noneCmpMsg : String := "TypeError: comparison not supported between NoneType operands"

def pyLtO : Option PRat → Option PRat → Except String Bool
  | some a, some b => Except.ok (PRat.blt a b)
  | _, _ => Except.error noneCmpMsg

def pyGtO : Option PRat → Option PRat → Except String Bool
  | some a, some b => Except.ok (PRat.blt b a)
  | _, _ => Except.error noneCmpMsg

/-- Lines 94-98: the RSI block.  The first comparison that meets a `None`
value raises. -/
def rsiSignalsOf (rsi_14 : Option PRat) : Except String (List String) := do
  let lowB ← pyLtO rsi_14 (some 30)
  if lowB then pure ["RSI_OVERSOLD"]
  else do
    let highB ← pyGtO rsi_14 (some 70)
    pure (if highB then ["RSI_OVERBOUGHT"] else ([] : List String))

/-- Lines 100-104: the MACD block (`if get_last(macd) > get_last(macd_signal)`). -/
def macdSignalsOf (macd macd_signal : Option PRat) : Except String (List String) := do
  let upB ← pyGtO macd macd_signal
  pure (if upB then ["MACD_BULLISH"] else ["MACD_BEARISH"])

/-- Lines 106-111: the ADX block guards with Python truthiness
(`adx_value and ...`), so a `None` — and also an exact `0.0` — silently emits
nothing instead of raising. -/
def adxSignals (adx : Option PRat) : List String :=
  match adx with
  | none => []
  | some a =>
    if PRat.beqv a 0 then []
    else if PRat.blt 25 a then ["STRONG_TREND"]
    else if PRat.blt a 20 then ["WEAK_TREND"]
    else []

/-- Lines 113-118: the Bollinger block. -/
def bbSignalsOf (current_price : PRat) (bb_lower bb_upper : Option PRat) :
    Except String (List String) := do
  let lowB ← pyLtO (some current_price) bb_lower
  if lowB then pure ["BB_OVERSOLD"]
  else do
    let highB ← pyGtO (some current_price) bb_upper
    pure (if highB then ["BB_OVERBOUGHT"] else ([] : List String))

/-- The signal-extraction block (lines 92-118) as a function of the latest
values it reads, in source order; a raised `TypeError` propagates to the
enclosing `try`. -/
def extractSignals (rsi_14 macd macd_signal adx : Option PRat) (current_price : PRat)
    (bb_lower bb_upper : Option PRat) : Except String (List String) := do
  let rsiSigs ← rsiSignalsOf rsi_14
  let macdSigs ← macdSignalsOf macd macd_signal
  let adxSigs := adxSignals adx
  let bbSigs ← bbSignalsOf current_price bb_lower bb_upper
  pure (rsiSigs ++ macdSigs ++ adxSigs ++ bbSigs)

/-- Line 192. -/
def bullish_signals : List String := ["RSI_OVERSOLD", "MACD_BULLISH", "BB_OVERSOLD"]

/-- Line 193. -/
def bearish_signals : List String := ["RSI_OVERBOUGHT", "MACD_BEARISH", "BB_OVERBOUGHT"]

def bullish_count (signals : List String) : Nat :=
  signals.countP (fun s => bullish_signals.contains s)

def bearish_count (signals : List String) : Nat :=
  signals.countP (fun s => bearish_signals.contains s)

/-- Lines 198-215: the branch on the two counts.  Unlike the reduced variant,
`strength` here is the winning count and 0 on HOLD. -/
def summaryOfCounts (b s : Nat) : Summary :=
  if b > s then ⟨"BUY", b, min ((b : PRat) * (1/4)) (17/20)⟩
  else if s > b then ⟨"SELL", s, min ((s : PRat) * (1/4)) (17/20)⟩
  else ⟨"HOLD", 0, 1/2⟩

/-- `generate_summary` (lines 190-215). -/
def generate_summary (signals : List String) : Summary :=
  summaryOfCounts (bullish_count signals) (bearish_count signals)

/-- Running sum / simple average of `len` entries of `xs` starting at index
`start` (TA-Lib's EMA seed). -/
def smaRange (xs : List PRat) (start len : Nat) : PRat :=
  PRat.div (((xs.drop start).take len).foldl PRat.add 0) ((len : Nat) : PRat)

/-- Exponential-moving-average scan: the seed value followed by the
recurrence `y = prev + (x - prev) * k` over `rest`. -/
def emaScan (k seed : PRat) (rest : List PRat) : List PRat :=
  (rest.foldl
    (fun (acc : List PRat × PRat) x =>
      let y := PRat.add acc.2 (PRat.mul (PRat.sub x acc.2) k)
      (acc.1 ++ [y], y))
    ([seed], seed)).1

/-- Latest values of `talib.MACD(prices, fastperiod=12, slowperiod=26,
signalperiod=9)` as `get_last` sees them.  TA-Lib's lookback for these
parameters is `(26-1) + (9-1) = 33`, so an input of fewer than 34 points
yields all-NaN output arrays (`None` after `get_last`).  Otherwise both EMAs
are produced from index 25 on, each seeded with the simple average of the
`period` inputs ending at index 25 (TA_INT_EMA), the MACD line is their
difference, and the signal line is the 9-period EMA of the MACD line seeded
with the average of its first 9 values (index 33). -/
def talibMACDlast (xs : List PRat) : Option PRat × Option PRat × Option PRat :=
  if xs.length < 34 then (none, none, none)
  else
    let fast := emaScan (2/13) (smaRange xs 14 12) (xs.drop 26)
    let slow := emaScan (2/27) (smaRange xs 0 26) (xs.drop 26)
    let macdSeries := List.zipWith PRat.sub fast slow
    let signalSeries := emaScan (2/10) (smaRange macdSeries 0 9) (macdSeries.drop 9)
    match macdSeries.getLast?, signalSeries.getLast? with
    | some m, some s => (some m, some s, some (PRat.sub m s))
    | _, _ => (none, none, none)

/-- The flat-line price array of 30 identical values, as the advanced
variant's talib calls receive it. -/
def flatQ : List PRat := List.replicate 30 100

end AdvancedTA

/-! ### Label-counting helpers for the signal-list claims -/

def countMacdLabels (l : List String) : Nat :=
  l.countP (fun x => x == "MACD_BULLISH" || x == "MACD_BEARISH")

def countTrendLabels (l : List String) : Nat :=
  l.countP (fun x => x == "TREND_BULLISH" || x == "TREND_BEARISH")

def countRsiLabels (l : List String) : Nat :=
  l.countP (fun x => x == "RSI_OVERSOLD" || x == "RSI_OVERBOUGHT")

def countBbLabels (l : List String) : Nat :=
  l.countP (fun x => x == "BB_OVERSOLD" || x == "BB_OVERBOUGHT")

/-! ### Helper lemmas -/

theorem rollingApply_length (w : Nat) (stat : List PyF → PyF) (xs : List PyF) :
    (rollingApply w stat xs).length = xs.length := by
  simp [rollingApply]

theorem calculate_stochastic_ok (highs lows closes : List PyF)
    (h : lows.length = closes.length) :
    ∃ kd, SimpleTA.calculate_stochastic highs lows closes = Except.ok kd := by
  have hlen : closes.length = (rollingApply 14 minStat lows).length := by
    rw [rollingApply_length]
    exact h.symm
  simp only [SimpleTA.calculate_stochastic, strictOp, if_pos hlen]
  exact ⟨_, rfl⟩

theorem calculate_stochastic_error (highs lows closes : List PyF) (e : String)
    (h : SimpleTA.calculate_stochastic highs lows closes = Except.error e) :
    e = lengthMismatchMsg := by
  simp only [SimpleTA.calculate_stochastic, strictOp] at h
  by_cases hc : closes.length = (rollingApply 14 minStat lows).length
  · rw [if_pos hc] at h
    simp at h
  · rw [if_neg hc] at h
    simp at h
    exact h.symm

theorem successRecord_success (p hs ls : List PyF) (st : PyF × PyF) :
    (SimpleTA.successRecord p hs ls st).success = some true := rfl

theorem successRecord_error (p hs ls : List PyF) (st : PyF × PyF) :
    (SimpleTA.successRecord p hs ls st).error = none := rfl

theorem successRecord_signals (p hs ls : List PyF) (st : PyF × PyF) :
    (SimpleTA.successRecord p hs ls st).signals =
      some (SimpleTA.simpleSignals (SimpleTA.calculate_rsi p 14)
        (SimpleTA.calculate_macd p).macd (SimpleTA.calculate_macd p).signal (lastD p)
        (SimpleTA.calculate_bollinger_bands p 20 2).lower
        (SimpleTA.calculate_bollinger_bands p 20 2).upper
        (SimpleTA.calculate_sma p 20) (SimpleTA.calculate_sma p 50)) := rfl

theorem analyze_data_success_form (input : InputData)
    (h : (SimpleTA.analyze_data input).success = some true) :
    ∃ stoch, SimpleTA.analyze_data input =
      SimpleTA.successRecord (getPrices input) (getHighs input) (getLows input) stoch := by
  unfold SimpleTA.analyze_data SimpleTA.analyze_body at h ⊢
  by_cases h30 : (getPrices input).length < 30
  · rw [if_pos h30] at h
    simp [SimpleTA.shortRecord] at h
  · rw [if_neg h30] at h ⊢
    cases hst : SimpleTA.calculate_stochastic (getHighs input) (getLows input) (getPrices input) with
    | error e =>
      rw [hst] at h
      simp at h
    | ok st =>
      exact ⟨st, rfl⟩

theorem simpleSignals_shape (ra mb mc pr lo up s2 s5 : PyF) :
    countMacdLabels (SimpleTA.simpleSignals ra mb mc pr lo up s2 s5) = 1 ∧
    countTrendLabels (SimpleTA.simpleSignals ra mb mc pr lo up s2 s5) = 1 ∧
    countRsiLabels (SimpleTA.simpleSignals ra mb mc pr lo up s2 s5) ≤ 1 ∧
    countBbLabels (SimpleTA.simpleSignals ra mb mc pr lo up s2 s5) ≤ 1 ∧
    2 ≤ (SimpleTA.simpleSignals ra mb mc pr lo up s2 s5).length ∧
    (SimpleTA.simpleSignals ra mb mc pr lo up s2 s5).length ≤ 4 ∧
    ("MACD_BULLISH" ∈ SimpleTA.simpleSignals ra mb mc pr lo up s2 s5 ↔ pyGt mb mc = true) := by
  unfold SimpleTA.simpleSignals
  cases h1 : pyLt ra (PyF.num 30) <;> cases h2 : pyGt ra (PyF.num 70) <;>
    cases h3 : pyGt mb mc <;> cases h4 : pyLt pr lo <;> cases h5 : pyGt pr up <;>
    cases h6 : pyGt s2 s5 <;>
    simp [h1, h2, h3, h4, h5, h6, countMacdLabels, countTrendLabels, countRsiLabels,
      countBbLabels]

theorem simple_summary_buy (b s : Nat) (h : s < b) :
    SimpleTA.summaryOfCounts b s = ⟨"BUY", max b s, min ((b : PRat) * (1/5)) (4/5)⟩ := by
  unfold SimpleTA.summaryOfCounts
  rw [if_pos h]

theorem simple_summary_sell (b s : Nat) (h : b < s) :
    SimpleTA.summaryOfCounts b s = ⟨"SELL", max b s, min ((s : PRat) * (1/5)) (4/5)⟩ := by
  unfold SimpleTA.summaryOfCounts
  rw [if_neg (by omega), if_pos h]

theorem simple_summary_hold (b s : Nat) (h : b = s) :
    SimpleTA.summaryOfCounts b s = ⟨"HOLD", max b s, 1/2⟩ := by
  unfold SimpleTA.summaryOfCounts
  rw [if_neg (by omega), if_neg (by omega)]

theorem adv_summary_buy (b s : Nat) (h : s < b) :
    AdvancedTA.summaryOfCounts b s = ⟨"BUY", b, min ((b : PRat) * (1/4)) (17/20)⟩ := by
  unfold AdvancedTA.summaryOfCounts
  rw [if_pos h]

theorem adv_summary_sell (b s : Nat) (h : b < s) :
    AdvancedTA.summaryOfCounts b s = ⟨"SELL", s, min ((s : PRat) * (1/4)) (17/20)⟩ := by
  unfold AdvancedTA.summaryOfCounts
  rw [if_neg (by omega), if_pos h]

theorem adv_summary_hold (b s : Nat) (h : b = s) :
    AdvancedTA.summaryOfCounts b s = ⟨"HOLD", 0, 1/2⟩ := by
  unfold AdvancedTA.summaryOfCounts
  rw [if_neg (by omega), if_neg (by omega)]

theorem pratBle_refl (a : PRat) : PRat.ble a a = true := by
  simp [PRat.ble]

theorem pyEqF_num (a b : PRat) : pyEqF (PyF.num a) (PyF.num b) = PRat.beqv a b := rfl

theorem bbpos_core (x : PyF) :
    (if pyLt x (PyF.num (1/5)) then "LOWER"
     else if pyGt x (PyF.num (4/5)) then "UPPER" else "MIDDLE") ∈
      (["LOWER", "MIDDLE", "UPPER", "UNKNOWN"] : List String) ∧
    (if pyLt x (PyF.num (1/5)) then "LOWER"
     else if pyGt x (PyF.num (4/5)) then "UPPER" else "MIDDLE") ≠ "UNKNOWN" := by
  cases h1 : pyLt x (PyF.num (1/5)) <;> cases h2 : pyGt x (PyF.num (4/5)) <;> simp [h1, h2]

theorem bbpos_coreQ (x : PRat) :
    (if PRat.blt x (1/5) then "LOWER"
     else if PRat.blt (4/5) x then "UPPER" else "MIDDLE") ∈
      (["LOWER", "MIDDLE", "UPPER", "UNKNOWN"] : List String) ∧
    (if PRat.blt x (1/5) then "LOWER"
     else if PRat.blt (4/5) x then "UPPER" else "MIDDLE") ≠ "UNKNOWN" := by
  cases h1 : PRat.blt x (1/5) <;> cases h2 : PRat.blt (4/5) x <;> simp [h1, h2]

theorem pratMin_le_right (a b : PRat) : min a b ≤ b := by
  show (if PRat.ble a b then a else b) ≤ b
  cases hab : PRat.ble a b
  · rw [if_neg (by simp [hab])]
    exact pratBle_refl b
  · rw [if_pos (by simp [hab])]
    exact hab

/-! ### The claims -/

/-- **C1** (amended).  For every signal set in which the variant's bullish
count equals its bearish count (including zero-zero), the aggregator returns
action HOLD with confidence exactly 1/2; the full variant's strength is 0 as
claimed, but the reduced variant reports the tied count itself
(`strength = max(bullish_count, bearish_count)`, line 190), which is nonzero
whenever the tie is not 0-0. -/
theorem c1_equal_counts_hold :
    (∀ sig : List String,
       AdvancedTA.bullish_count sig = AdvancedTA.bearish_count sig →
       AdvancedTA.generate_summary sig = ⟨"HOLD", 0, 1/2⟩) ∧
    (∀ sig : List String,
       SimpleTA.bullish_count sig = SimpleTA.bearish_count sig →
       SimpleTA.simpleSummary sig = ⟨"HOLD", SimpleTA.bullish_count sig, 1/2⟩) := by
  constructor
  · intro sig h
    unfold AdvancedTA.generate_summary
    rw [adv_summary_hold _ _ h]
  · intro sig h
    unfold SimpleTA.simpleSummary
    rw [simple_summary_hold _ _ h, h, Nat.max_self]

/-- **C1** witness: the empty signal set is a 0-0 tie in both variants. -/
theorem c1_equal_counts_hold_witness :
    AdvancedTA.generate_summary [] = ⟨"HOLD", 0, 1/2⟩ ∧
    SimpleTA.simpleSummary [] = ⟨"HOLD", SimpleTA.bullish_count [], 1/2⟩ :=
  ⟨c1_equal_counts_hold.1 [] rfl, c1_equal_counts_hold.2 [] rfl⟩

/-- **C1** counterexample: the reachable tied signal set
`[MACD_BULLISH, TREND_BEARISH]` of the reduced variant yields HOLD with
strength 1, not the claimed strength 0. -/
theorem c1_counterexample :
    SimpleTA.bullish_count ["MACD_BULLISH", "TREND_BEARISH"] =
      SimpleTA.bearish_count ["MACD_BULLISH", "TREND_BEARISH"] ∧
    (SimpleTA.simpleSummary ["MACD_BULLISH", "TREND_BEARISH"]).action = "HOLD" ∧
    (SimpleTA.simpleSummary ["MACD_BULLISH", "TREND_BEARISH"]).confidence = 1/2 ∧
    (SimpleTA.simpleSummary ["MACD_BULLISH", "TREND_BEARISH"]).strength = 1 ∧
    (SimpleTA.simpleSummary ["MACD_BULLISH", "TREND_BEARISH"]).strength ≠ 0 := by
  decide

/-- **C2** (amended).  On an input with fewer than 30 price points the reduced
variant returns `{'success': False, 'error': ...}` with no indicators key, as
claimed; the full variant instead returns the bare `{'error': ...}` record of
line 31, which carries NO `success` key at all (and no indicators key). -/
theorem c2_short_input (input : InputData) (h : (getPrices input).length < 30) :
    (SimpleTA.analyze_data input).success = some false ∧
    (SimpleTA.analyze_data input).indicators = none ∧
    (SimpleTA.analyze_data input).error = some "Need at least 30 data points" ∧
    AdvancedTA.inputStage input = some AdvancedTA.errRecord ∧
    AdvancedTA.errRecord.success = none ∧
    AdvancedTA.errRecord.indicators = none := by
  have hs : SimpleTA.analyze_data input = SimpleTA.shortRecord := by
    unfold SimpleTA.analyze_data SimpleTA.analyze_body
    rw [if_pos h]
  have ha : AdvancedTA.inputStage input = some AdvancedTA.errRecord := by
    simp only [AdvancedTA.inputStage]
    rw [if_pos h]
  rw [hs]
  exact ⟨rfl, rfl, rfl, ha, rfl, rfl⟩

/-- **C2** witness: a concrete 5-point input. -/
theorem c2_short_input_witness :
    (SimpleTA.analyze_data ⟨some (List.replicate 5 (PyF.num 100)), none, none, none⟩).success =
      some false ∧
    (SimpleTA.analyze_data ⟨some (List.replicate 5 (PyF.num 100)), none, none, none⟩).indicators =
      none ∧
    (SimpleTA.analyze_data ⟨some (List.replicate 5 (PyF.num 100)), none, none, none⟩).error =
      some "Need at least 30 data points" ∧
    AdvancedTA.inputStage ⟨some (List.replicate 5 (PyF.num 100)), none, none, none⟩ =
      some AdvancedTA.errRecord ∧
    AdvancedTA.errRecord.success = none ∧
    AdvancedTA.errRecord.indicators = none :=
  c2_short_input ⟨some (List.replicate 5 (PyF.num 100)), none, none, none⟩ (by decide)

/-- **C2** counterexample: on a 5-point input the full variant's returned
record has NO success key (`success = none`), so it does not contain a
success field that is false. -/
theorem c2_counterexample :
    AdvancedTA.inputStage ⟨some (List.replicate 5 (PyF.num 100)), none, none, none⟩ =
      some ⟨none, none, none, none, some "Need at least 30 data points"⟩ := by
  decide

/-- **C3** (amended).  Both classifications are total with values among
LOWER/MIDDLE/UPPER/UNKNOWN.  The reduced variant returns UNKNOWN exactly when
the two bands are equal, as claimed; the full variant returns UNKNOWN exactly
when a band is Python-falsy (`None` or `0.0`) or the bands are equal, because
its guard is `if not upper or not lower or upper == lower`. -/
theorem c3_bb_position_total :
    (∀ p u l : PRat,
       SimpleTA.calculate_bb_position (PyF.num p) (PyF.num u) (PyF.num l) ∈
         (["LOWER", "MIDDLE", "UPPER", "UNKNOWN"] : List String) ∧
       (SimpleTA.calculate_bb_position (PyF.num p) (PyF.num u) (PyF.num l) = "UNKNOWN" ↔
         PRat.beqv u l = true)) ∧
    (∀ (p : PRat) (u l : Option PRat),
       AdvancedTA.calculate_bb_position p u l ∈
         (["LOWER", "MIDDLE", "UPPER", "UNKNOWN"] : List String) ∧
       (AdvancedTA.calculate_bb_position p u l = "UNKNOWN" ↔
         (AdvancedTA.pyFalsyQ u || AdvancedTA.pyFalsyQ l || AdvancedTA.pyEqO u l) = true)) := by
  constructor
  · intro p u l
    unfold SimpleTA.calculate_bb_position
    cases he : PRat.beqv u l
    · rw [if_neg (by simp [pyEqF_num, he])]
      refine ⟨(bbpos_core _).1, ?_⟩
      simp [he, (bbpos_core (pyDiv (pySub (PyF.num p) (PyF.num l)) (pySub (PyF.num u) (PyF.num l)))).2]
    · rw [if_pos (by simp [pyEqF_num, he])]
      simp
  · intro p u l
    unfold AdvancedTA.calculate_bb_position
    cases hg : (AdvancedTA.pyFalsyQ u || AdvancedTA.pyFalsyQ l || AdvancedTA.pyEqO u l)
    · rw [if_neg (by simp [hg])]
      cases u with
      | none => simp [AdvancedTA.pyFalsyQ] at hg
      | some uv =>
        cases l with
        | none => simp [AdvancedTA.pyFalsyQ] at hg
        | some lv =>
          refine ⟨(bbpos_coreQ _).1, ?_⟩
          simp [hg, (bbpos_coreQ (PRat.div (PRat.sub p lv) (PRat.sub uv lv))).2]
    · rw [if_pos (by simp [hg])]
      simp [hg]

/-- **C3** counterexample: in the full variant a lower band of exactly 0.0 is
falsy, so the position is UNKNOWN although the bands differ. -/
theorem c3_counterexample :
    AdvancedTA.calculate_bb_position (1/2) (some 1) (some 0) = "UNKNOWN" ∧
    AdvancedTA.pyEqO (some 1) (some 0) = false ∧
    (1 : PRat) ≠ (0 : PRat) := by
  decide

/-- **C4** (amended).  Neither variant validates that the four series have
equal lengths, and no `MalformedInputError` exists anywhere: the only input
validation is `len(prices) < 30`.  Any input with at least 30 prices passes
the full variant's input stage, and on such an input the reduced variant
either computes a complete success result or catches the internal pandas
broadcast `ValueError` as `{'success': False, 'error': ...}` — it never fails
fast. -/
theorem c4_no_mismatch_validation :
    (∀ input : InputData, ¬ (getPrices input).length < 30 →
       AdvancedTA.inputStage input = none) ∧
    (∀ input : InputData, ¬ (getPrices input).length < 30 →
       (SimpleTA.analyze_data input).success = some true ∨
       ((SimpleTA.analyze_data input).success = some false ∧
        (SimpleTA.analyze_data input).error = some lengthMismatchMsg)) := by
  constructor
  · intro input h
    simp only [AdvancedTA.inputStage]
    rw [if_neg h]
  · intro input h
    unfold SimpleTA.analyze_data SimpleTA.analyze_body
    rw [if_neg h]
    cases hst : SimpleTA.calculate_stochastic (getHighs input) (getLows input) (getPrices input) with
    | error e =>
      right
      have hmsg := calculate_stochastic_error _ _ _ _ hst
      subst hmsg
      exact ⟨rfl, rfl⟩
    | ok st =>
      left
      rfl

/-- **C4** witness: the flat 30-point input passes both stages. -/
theorem c4_no_mismatch_validation_witness :
    AdvancedTA.inputStage SimpleTA.flatInput = none ∧
    ((SimpleTA.analyze_data SimpleTA.flatInput).success = some true ∨
     ((SimpleTA.analyze_data SimpleTA.flatInput).success = some false ∧
      (SimpleTA.analyze_data SimpleTA.flatInput).error = some lengthMismatchMsg)) :=
  ⟨c4_no_mismatch_validation.1 SimpleTA.flatInput (by decide),
   c4_no_mismatch_validation.2 SimpleTA.flatInput (by decide)⟩

set_option maxRecDepth 200000 in
/-- **C4** counterexample: an input whose `highs` series has 5 points while
`prices` (and the defaulted `lows`) have 30 is length-mismatched, yet the
reduced variant silently computes a full success result and the full
variant's input stage passes it through — no variant fails fast with any
error. -/
theorem c4_counterexample :
    (getHighs SimpleTA.mismatchedInput).length ≠ (getPrices SimpleTA.mismatchedInput).length ∧
    (SimpleTA.analyze_data SimpleTA.mismatchedInput).success = some true ∧
    (SimpleTA.analyze_data SimpleTA.mismatchedInput).error = none ∧
    AdvancedTA.inputStage SimpleTA.mismatchedInput = none := by
  decide

/-! ### Helper lemmas for C5-C7 -/

theorem rsiSignalsOf_some (r : PRat) :
    AdvancedTA.rsiSignalsOf (some r) =
      Except.ok (if PRat.blt r 30 then ["RSI_OVERSOLD"]
        else if PRat.blt 70 r then ["RSI_OVERBOUGHT"] else []) := by
  unfold AdvancedTA.rsiSignalsOf
  simp only [show AdvancedTA.pyLtO (some r) (some 30) = Except.ok (PRat.blt r 30) from rfl,
    show AdvancedTA.pyGtO (some r) (some 70) = Except.ok (PRat.blt 70 r) from rfl]
  cases h : PRat.blt r 30 <;> rfl

theorem macdSignalsOf_some (m s : PRat) :
    AdvancedTA.macdSignalsOf (some m) (some s) =
      Except.ok (if PRat.blt s m then ["MACD_BULLISH"] else ["MACD_BEARISH"]) := rfl

theorem bbSignalsOf_some (p l u : PRat) :
    AdvancedTA.bbSignalsOf p (some l) (some u) =
      Except.ok (if PRat.blt p l then ["BB_OVERSOLD"]
        else if PRat.blt u p then ["BB_OVERBOUGHT"] else []) := by
  unfold AdvancedTA.bbSignalsOf
  simp only [show AdvancedTA.pyLtO (some p) (some l) = Except.ok (PRat.blt p l) from rfl,
    show AdvancedTA.pyGtO (some p) (some u) = Except.ok (PRat.blt u p) from rfl]
  cases h : PRat.blt p l <;> rfl

theorem extractSignals_ok (r m s : PRat) (adx : Option PRat) (p l u : PRat) :
    AdvancedTA.extractSignals (some r) (some m) (some s) adx p (some l) (some u) =
      Except.ok
        ((if PRat.blt r 30 then ["RSI_OVERSOLD"]
          else if PRat.blt 70 r then ["RSI_OVERBOUGHT"] else [])
         ++ (if PRat.blt s m then ["MACD_BULLISH"] else ["MACD_BEARISH"])
         ++ AdvancedTA.adxSignals adx
         ++ (if PRat.blt p l then ["BB_OVERSOLD"]
             else if PRat.blt u p then ["BB_OVERBOUGHT"] else [])) := by
  unfold AdvancedTA.extractSignals
  rw [rsiSignalsOf_some, macdSignalsOf_some, bbSignalsOf_some]
  rfl

theorem countMacdLabels_append (a b : List String) :
    countMacdLabels (a ++ b) = countMacdLabels a + countMacdLabels b := by
  simp [countMacdLabels, List.countP_append]

theorem countMacd_rsiPiece (c1 c2 : Bool) :
    countMacdLabels (if c1 then ["RSI_OVERSOLD"] else if c2 then ["RSI_OVERBOUGHT"] else []) = 0 := by
  cases c1 <;> cases c2 <;> decide

theorem countMacd_macdPiece (c : Bool) :
    countMacdLabels (if c then ["MACD_BULLISH"] else ["MACD_BEARISH"]) = 1 := by
  cases c <;> decide

theorem countMacd_bbPiece (c1 c2 : Bool) :
    countMacdLabels (if c1 then ["BB_OVERSOLD"] else if c2 then ["BB_OVERBOUGHT"] else []) = 0 := by
  cases c1 <;> cases c2 <;> decide

theorem countMacd_adxPiece (adx : Option PRat) :
    countMacdLabels (AdvancedTA.adxSignals adx) = 0 := by
  rcases adx with _ | a
  · decide
  · unfold AdvancedTA.adxSignals
    cases h0 : PRat.beqv a 0 <;> cases h25 : PRat.blt 25 a <;> cases h20 : PRat.blt a 20 <;>
      simp [h0, h25, h20, countMacdLabels]

theorem mb_not_mem_rsiPiece (c1 c2 : Bool) :
    "MACD_BULLISH" ∉
      (if c1 then ["RSI_OVERSOLD"] else if c2 then ["RSI_OVERBOUGHT"] else ([] : List String)) := by
  cases c1 <;> cases c2 <;> decide

theorem mb_mem_macdPiece (c : Bool) :
    "MACD_BULLISH" ∈ (if c then ["MACD_BULLISH"] else ["MACD_BEARISH"]) ↔ c = true := by
  cases c <;> decide

theorem mb_not_mem_bbPiece (c1 c2 : Bool) :
    "MACD_BULLISH" ∉
      (if c1 then ["BB_OVERSOLD"] else if c2 then ["BB_OVERBOUGHT"] else ([] : List String)) := by
  cases c1 <;> cases c2 <;> decide

theorem mb_not_mem_adxPiece (adx : Option PRat) :
    "MACD_BULLISH" ∉ AdvancedTA.adxSignals adx := by
  rcases adx with _ | a
  · decide
  · unfold AdvancedTA.adxSignals
    cases h0 : PRat.beqv a 0 <;> cases h25 : PRat.blt 25 a <;> cases h20 : PRat.blt a 20 <;>
      simp [h0, h25, h20]

theorem simple_action_buy (b s : Nat) :
    (SimpleTA.summaryOfCounts b s).action = "BUY" ↔ s < b := by
  rcases Nat.lt_trichotomy b s with h | h | h
  · rw [simple_summary_sell _ _ h]
    simp
    omega
  · rw [simple_summary_hold _ _ h]
    simp
    omega
  · rw [simple_summary_buy _ _ h]
    simp [h]

theorem simple_action_sell (b s : Nat) :
    (SimpleTA.summaryOfCounts b s).action = "SELL" ↔ b < s := by
  rcases Nat.lt_trichotomy b s with h | h | h
  · rw [simple_summary_sell _ _ h]
    simp [h]
  · rw [simple_summary_hold _ _ h]
    simp
    omega
  · rw [simple_summary_buy _ _ h]
    simp
    omega

theorem simple_strength_eq (b s : Nat) :
    (SimpleTA.summaryOfCounts b s).strength = max b s := by
  rcases Nat.lt_trichotomy b s with h | h | h
  · rw [simple_summary_sell _ _ h]
  · rw [simple_summary_hold _ _ h]
  · rw [simple_summary_buy _ _ h]

theorem adv_action_buy (b s : Nat) :
    (AdvancedTA.summaryOfCounts b s).action = "BUY" ↔ s < b := by
  rcases Nat.lt_trichotomy b s with h | h | h
  · rw [adv_summary_sell _ _ h]
    simp
    omega
  · rw [adv_summary_hold _ _ h]
    simp
    omega
  · rw [adv_summary_buy _ _ h]
    simp [h]

theorem adv_action_sell (b s : Nat) :
    (AdvancedTA.summaryOfCounts b s).action = "SELL" ↔ b < s := by
  rcases Nat.lt_trichotomy b s with h | h | h
  · rw [adv_summary_sell _ _ h]
    simp [h]
  · rw [adv_summary_hold _ _ h]
    simp
    omega
  · rw [adv_summary_buy _ _ h]
    simp
    omega

theorem adv_strength_buy (b s : Nat) (h : s < b) :
    (AdvancedTA.summaryOfCounts b s).strength = b := by
  rw [adv_summary_buy _ _ h]

/-- **C5** (amended).  The reduced variant's signal list always contains
exactly one of MACD_BULLISH/MACD_BEARISH, with MACD_BULLISH exactly when the
MACD line's latest value is strictly greater than the signal line's latest
value, for every input that reaches the signal block (at least 30 prices and
a lows series of matching length).  In the full variant the same holds only
when the latest MACD values are defined; with 30-33 points talib.MACD is
all-NaN (lookback 33) and the comparison of the two `None` values raises
instead (see the counterexample). -/
theorem c5_macd_exactly_one :
    (∀ input : InputData, ¬ (getPrices input).length < 30 →
       (getLows input).length = (getPrices input).length →
       countMacdLabels (((SimpleTA.analyze_data input).signals).getD []) = 1 ∧
       ("MACD_BULLISH" ∈ ((SimpleTA.analyze_data input).signals).getD [] ↔
         pyGt (SimpleTA.calculate_macd (getPrices input)).macd
           (SimpleTA.calculate_macd (getPrices input)).signal = true)) ∧
    (∀ (r m s : PRat) (adx : Option PRat) (p l u : PRat),
       ∃ lst, AdvancedTA.extractSignals (some r) (some m) (some s) adx p (some l) (some u) =
           Except.ok lst ∧
         countMacdLabels lst = 1 ∧
         ("MACD_BULLISH" ∈ lst ↔ PRat.blt s m = true)) := by
  constructor
  · intro input h30 hlen
    obtain ⟨st, hst⟩ :=
      calculate_stochastic_ok (getHighs input) (getLows input) (getPrices input) hlen
    have hform : SimpleTA.analyze_data input =
        SimpleTA.successRecord (getPrices input) (getHighs input) (getLows input) st := by
      unfold SimpleTA.analyze_data SimpleTA.analyze_body
      rw [if_neg h30, hst]
    rw [hform, successRecord_signals]
    simp only [Option.getD_some]
    exact ⟨(simpleSignals_shape _ _ _ _ _ _ _ _).1,
      (simpleSignals_shape _ _ _ _ _ _ _ _).2.2.2.2.2.2⟩
  · intro r m s adx p l u
    refine ⟨_, extractSignals_ok r m s adx p l u, ?_, ?_⟩
    · rw [countMacdLabels_append, countMacdLabels_append, countMacdLabels_append,
        countMacd_rsiPiece, countMacd_macdPiece, countMacd_adxPiece, countMacd_bbPiece]
    · simp [List.mem_append, mb_not_mem_rsiPiece, mb_not_mem_bbPiece, mb_not_mem_adxPiece,
        mb_mem_macdPiece]

/-- **C5** witness: the flat 30-point input for the reduced half, and concrete
defined values for the full half. -/
theorem c5_macd_exactly_one_witness :
    (countMacdLabels (((SimpleTA.analyze_data SimpleTA.flatInput).signals).getD []) = 1 ∧
     ("MACD_BULLISH" ∈ ((SimpleTA.analyze_data SimpleTA.flatInput).signals).getD [] ↔
       pyGt (SimpleTA.calculate_macd (getPrices SimpleTA.flatInput)).macd
         (SimpleTA.calculate_macd (getPrices SimpleTA.flatInput)).signal = true)) ∧
    (∃ lst, AdvancedTA.extractSignals (some 40) (some 2) (some 1) none 100 (some 95) (some 105) =
        Except.ok lst ∧
      countMacdLabels lst = 1 ∧ ("MACD_BULLISH" ∈ lst ↔ PRat.blt 1 2 = true)) :=
  ⟨c5_macd_exactly_one.1 SimpleTA.flatInput (by decide) (by decide),
   c5_macd_exactly_one.2 40 2 1 none 100 95 105⟩

/-- **C5** counterexample: on the flat 30-point input — valid by the spec's
own minimum — talib.MACD returns all-NaN arrays, so both latest MACD values
are `None` and the full variant's signal block raises a `TypeError` at the
MACD comparison (caught into `{'success': False}`): no signal list is emitted
at all, hence it contains neither MACD label.  (TA-Lib's RSI of a flat series
is 0 and its ADX is 0, and the collapsed bands equal the price; the raise
happens at the MACD comparison no matter these values.) -/
theorem c5_counterexample :
    AdvancedTA.talibMACDlast AdvancedTA.flatQ = (none, none, none) ∧
    AdvancedTA.extractSignals (some 0) none none (some 0) 100 (some 100) (some 100) =
      Except.error AdvancedTA.noneCmpMsg :=
  ⟨by decide, rfl⟩

/-- **C6** (confirmed).  Raising the bullish count while holding the bearish
count fixed: if the action was BUY it stays BUY and the strength does not
decrease, and the action never becomes SELL when it was not already SELL —
in both variants. -/
theorem c6_monotonic_aggregation (b bp s : Nat) (hb : b ≤ bp) :
    (((SimpleTA.summaryOfCounts b s).action = "BUY" →
       (SimpleTA.summaryOfCounts bp s).action = "BUY" ∧
       (SimpleTA.summaryOfCounts b s).strength ≤ (SimpleTA.summaryOfCounts bp s).strength) ∧
     ((SimpleTA.summaryOfCounts b s).action ≠ "SELL" →
       (SimpleTA.summaryOfCounts bp s).action ≠ "SELL")) ∧
    (((AdvancedTA.summaryOfCounts b s).action = "BUY" →
       (AdvancedTA.summaryOfCounts bp s).action = "BUY" ∧
       (AdvancedTA.summaryOfCounts b s).strength ≤ (AdvancedTA.summaryOfCounts bp s).strength) ∧
     ((AdvancedTA.summaryOfCounts b s).action ≠ "SELL" →
       (AdvancedTA.summaryOfCounts bp s).action ≠ "SELL")) := by
  refine ⟨⟨?_, ?_⟩, ⟨?_, ?_⟩⟩
  · intro hbuy
    rw [simple_action_buy] at hbuy
    have hb2 : s < bp := lt_of_lt_of_le hbuy hb
    refine ⟨(simple_action_buy bp s).mpr hb2, ?_⟩
    rw [simple_strength_eq, simple_strength_eq]
    exact max_le_max hb (le_refl s)
  · intro hns hsell
    rw [simple_action_sell] at hsell
    exact hns ((simple_action_sell b s).mpr (by omega))
  · intro hbuy
    rw [adv_action_buy] at hbuy
    have hb2 : s < bp := lt_of_lt_of_le hbuy hb
    refine ⟨(adv_action_buy bp s).mpr hb2, ?_⟩
    rw [adv_strength_buy _ _ hbuy, adv_strength_buy _ _ hb2]
    exact hb
  · intro hns hsell
    rw [adv_action_sell] at hsell
    exact hns ((adv_action_sell b s).mpr (by omega))

/-- **C6** witness: counts (1,0) raised to (2,0). -/
theorem c6_monotonic_aggregation_witness :
    (((SimpleTA.summaryOfCounts 1 0).action = "BUY" →
       (SimpleTA.summaryOfCounts 2 0).action = "BUY" ∧
       (SimpleTA.summaryOfCounts 1 0).strength ≤ (SimpleTA.summaryOfCounts 2 0).strength) ∧
     ((SimpleTA.summaryOfCounts 1 0).action ≠ "SELL" →
       (SimpleTA.summaryOfCounts 2 0).action ≠ "SELL")) ∧
    (((AdvancedTA.summaryOfCounts 1 0).action = "BUY" →
       (AdvancedTA.summaryOfCounts 2 0).action = "BUY" ∧
       (AdvancedTA.summaryOfCounts 1 0).strength ≤ (AdvancedTA.summaryOfCounts 2 0).strength) ∧
     ((AdvancedTA.summaryOfCounts 1 0).action ≠ "SELL" →
       (AdvancedTA.summaryOfCounts 2 0).action ≠ "SELL")) :=
  c6_monotonic_aggregation 1 2 0 (by omega)

/-- **C7** (confirmed).  Whenever one side strictly wins,
`confidence = min(winning count * k, cap)` with `(k, cap) = (1/4, 17/20)`
— i.e. (0.25, 0.85) — in the full variant and `(1/5, 4/5)` — i.e.
(0.2, 0.8) — in the reduced variant, and in particular the confidence never
exceeds the variant's cap. -/
theorem c7_confidence_formula (sig : List String) :
    (SimpleTA.bearish_count sig < SimpleTA.bullish_count sig →
       (SimpleTA.simpleSummary sig).confidence =
         min ((SimpleTA.bullish_count sig : PRat) * (1/5)) (4/5) ∧
       (SimpleTA.simpleSummary sig).confidence ≤ (4/5 : PRat)) ∧
    (SimpleTA.bullish_count sig < SimpleTA.bearish_count sig →
       (SimpleTA.simpleSummary sig).confidence =
         min ((SimpleTA.bearish_count sig : PRat) * (1/5)) (4/5) ∧
       (SimpleTA.simpleSummary sig).confidence ≤ (4/5 : PRat)) ∧
    (AdvancedTA.bearish_count sig < AdvancedTA.bullish_count sig →
       (AdvancedTA.generate_summary sig).confidence =
         min ((AdvancedTA.bullish_count sig : PRat) * (1/4)) (17/20) ∧
       (AdvancedTA.generate_summary sig).confidence ≤ (17/20 : PRat)) ∧
    (AdvancedTA.bullish_count sig < AdvancedTA.bearish_count sig →
       (AdvancedTA.generate_summary sig).confidence =
         min ((AdvancedTA.bearish_count sig : PRat) * (1/4)) (17/20) ∧
       (AdvancedTA.generate_summary sig).confidence ≤ (17/20 : PRat)) := by
  refine ⟨?_, ?_, ?_, ?_⟩ <;> intro h
  · unfold SimpleTA.simpleSummary
    rw [simple_summary_buy _ _ h]
    exact ⟨rfl, pratMin_le_right _ _⟩
  · unfold SimpleTA.simpleSummary
    rw [simple_summary_sell _ _ h]
    exact ⟨rfl, pratMin_le_right _ _⟩
  · unfold AdvancedTA.generate_summary
    rw [adv_summary_buy _ _ h]
    exact ⟨rfl, pratMin_le_right _ _⟩
  · unfold AdvancedTA.generate_summary
    rw [adv_summary_sell _ _ h]
    exact ⟨rfl, pratMin_le_right _ _⟩

/-- **C7** witness: a lone MACD_BULLISH (respectively MACD_BEARISH) signal
gives a strict winner in each variant. -/
theorem c7_confidence_formula_witness :
    ((SimpleTA.simpleSummary ["MACD_BULLISH"]).confidence =
       min ((SimpleTA.bullish_count ["MACD_BULLISH"] : PRat) * (1/5)) (4/5) ∧
     (SimpleTA.simpleSummary ["MACD_BULLISH"]).confidence ≤ (4/5 : PRat)) ∧
    ((SimpleTA.simpleSummary ["MACD_BEARISH"]).confidence =
       min ((SimpleTA.bearish_count ["MACD_BEARISH"] : PRat) * (1/5)) (4/5) ∧
     (SimpleTA.simpleSummary ["MACD_BEARISH"]).confidence ≤ (4/5 : PRat)) ∧
    ((AdvancedTA.generate_summary ["MACD_BULLISH"]).confidence =
       min ((AdvancedTA.bullish_count ["MACD_BULLISH"] : PRat) * (1/4)) (17/20) ∧
     (AdvancedTA.generate_summary ["MACD_BULLISH"]).confidence ≤ (17/20 : PRat)) ∧
    ((AdvancedTA.generate_summary ["MACD_BEARISH"]).confidence =
       min ((AdvancedTA.bearish_count ["MACD_BEARISH"] : PRat) * (1/4)) (17/20) ∧
     (AdvancedTA.generate_summary ["MACD_BEARISH"]).confidence ≤ (17/20 : PRat)) :=
  ⟨(c7_confidence_formula ["MACD_BULLISH"]).1 (by decide),
   (c7_confidence_formula ["MACD_BEARISH"]).2.1 (by decide),
   (c7_confidence_formula ["MACD_BULLISH"]).2.2.1 (by decide),
   (c7_confidence_formula ["MACD_BEARISH"]).2.2.2 (by decide)⟩

set_option maxRecDepth 400000 in
/-- **C8** (amended).  On the flat 30-point input the reduced variant reports
`sma_20`, `ema_12` and `ema_26` equal to the common value, resolves the
nan RSI to the neutral fallback 50.0, collapses the Bollinger bands to zero
width (upper = lower = 100) giving position UNKNOWN, and classifies MACD as
BEARISH with histogram 0 (the tie rule `macd > signal` is false at equality)
— but `sma_50` is NaN, because its 50-point window exceeds the 30-point
series, so not ALL moving averages equal that value. -/
theorem c8_flat_line :
    ((SimpleTA.analyze_data SimpleTA.flatInput).indicators.map (fun i => i.sma_20)) =
      some (PyF.num 100) ∧
    ((SimpleTA.analyze_data SimpleTA.flatInput).indicators.map (fun i => i.ema_12)) =
      some (PyF.num 100) ∧
    ((SimpleTA.analyze_data SimpleTA.flatInput).indicators.map (fun i => i.ema_26)) =
      some (PyF.num 100) ∧
    ((SimpleTA.analyze_data SimpleTA.flatInput).indicators.map (fun i => i.sma_50)) =
      some PyF.nan ∧
    ((SimpleTA.analyze_data SimpleTA.flatInput).indicators.map (fun i => i.rsi_14)) =
      some (PyF.num 50) ∧
    ((SimpleTA.analyze_data SimpleTA.flatInput).indicators.map (fun i => i.bb_upper)) =
      some (PyF.num 100) ∧
    ((SimpleTA.analyze_data SimpleTA.flatInput).indicators.map (fun i => i.bb_lower)) =
      some (PyF.num 100) ∧
    ((SimpleTA.analyze_data SimpleTA.flatInput).indicators.map (fun i => i.bb_position)) =
      some "UNKNOWN" ∧
    ((SimpleTA.analyze_data SimpleTA.flatInput).indicators.map (fun i => i.macd_histogram)) =
      some (PyF.num 0) ∧
    ((SimpleTA.analyze_data SimpleTA.flatInput).indicators.map (fun i => i.macd_trend)) =
      some "BEARISH" ∧
    "MACD_BEARISH" ∈ ((SimpleTA.analyze_data SimpleTA.flatInput).signals).getD [] := by
  decide

set_option maxRecDepth 200000 in
/-- **C8** counterexample: `sma_50` on the flat 30-point input is reported as
NaN, not as the common value 100, so "all moving averages equal that value"
fails. -/
theorem c8_counterexample :
    ((SimpleTA.analyze_data SimpleTA.flatInput).indicators.map (fun i => i.sma_50)) =
      some PyF.nan ∧ PyF.nan ≠ PyF.num 100 := by
  decide

/-- **C9** (confirmed).  The reduced variant's analysis is total over parsed
numeric input records: every outcome carries `success = some true`, or
`success = some false` together with an error message — the catch-all
`except` boundary converts the one possible internal exception, and both
early-error paths set both keys. -/
theorem c9_always_success_key (input : InputData) :
    (SimpleTA.analyze_data input).success = some true ∨
    ((SimpleTA.analyze_data input).success = some false ∧
     ((SimpleTA.analyze_data input).error).isSome = true) := by
  unfold SimpleTA.analyze_data SimpleTA.analyze_body
  by_cases h30 : (getPrices input).length < 30
  · rw [if_pos h30]
    right
    exact ⟨rfl, rfl⟩
  · rw [if_neg h30]
    cases hst : SimpleTA.calculate_stochastic (getHighs input) (getLows input) (getPrices input) with
    | error e =>
      right
      exact ⟨rfl, rfl⟩
    | ok st =>
      left
      rfl

/-- **C9** witness. -/
theorem c9_always_success_key_witness :
    (SimpleTA.analyze_data SimpleTA.flatInput).success = some true ∨
    ((SimpleTA.analyze_data SimpleTA.flatInput).success = some false ∧
     ((SimpleTA.analyze_data SimpleTA.flatInput).error).isSome = true) :=
  c9_always_success_key SimpleTA.flatInput

/-- **C10** (confirmed).  Whenever the reduced variant succeeds, its signal
list has exactly one MACD label and exactly one TREND label, at most one RSI
label and at most one Bollinger label, hence between 2 and 4 entries. -/
theorem c10_signal_list_shape (input : InputData)
    (h : (SimpleTA.analyze_data input).success = some true) :
    countMacdLabels (((SimpleTA.analyze_data input).signals).getD []) = 1 ∧
    countTrendLabels (((SimpleTA.analyze_data input).signals).getD []) = 1 ∧
    countRsiLabels (((SimpleTA.analyze_data input).signals).getD []) ≤ 1 ∧
    countBbLabels (((SimpleTA.analyze_data input).signals).getD []) ≤ 1 ∧
    2 ≤ (((SimpleTA.analyze_data input).signals).getD []).length ∧
    (((SimpleTA.analyze_data input).signals).getD []).length ≤ 4 := by
  obtain ⟨st, hform⟩ := analyze_data_success_form input h
  rw [hform, successRecord_signals]
  simp only [Option.getD_some]
  have hs := simpleSignals_shape (SimpleTA.calculate_rsi (getPrices input) 14)
    (SimpleTA.calculate_macd (getPrices input)).macd
    (SimpleTA.calculate_macd (getPrices input)).signal (lastD (getPrices input))
    (SimpleTA.calculate_bollinger_bands (getPrices input) 20 2).lower
    (SimpleTA.calculate_bollinger_bands (getPrices input) 20 2).upper
    (SimpleTA.calculate_sma (getPrices input) 20) (SimpleTA.calculate_sma (getPrices input) 50)
  exact ⟨hs.1, hs.2.1, hs.2.2.1, hs.2.2.2.1, hs.2.2.2.2.1, hs.2.2.2.2.2.1⟩

set_option maxRecDepth 200000 in
/-- **C10** witness: the flat 30-point input succeeds and its signal list is
`[MACD_BEARISH, TREND_BEARISH]`. -/
theorem c10_signal_list_shape_witness :
    (SimpleTA.analyze_data SimpleTA.flatInput).success = some true ∧
    (countMacdLabels (((SimpleTA.analyze_data SimpleTA.flatInput).signals).getD []) = 1 ∧
     countTrendLabels (((SimpleTA.analyze_data SimpleTA.flatInput).signals).getD []) = 1 ∧
     countRsiLabels (((SimpleTA.analyze_data SimpleTA.flatInput).signals).getD []) ≤ 1 ∧
     countBbLabels (((SimpleTA.analyze_data SimpleTA.flatInput).signals).getD []) ≤ 1 ∧
     2 ≤ (((SimpleTA.analyze_data SimpleTA.flatInput).signals).getD []).length ∧
     (((SimpleTA.analyze_data SimpleTA.flatInput).signals).getD []).length ≤ 4) :=
  ⟨by decide, c10_signal_list_shape SimpleTA.flatInput (by decide)⟩

end TechAnalysis
